import Mathlib

set_option linter.unusedVariables false

/-!
Shallow embedding of the Raft dependency-management core: the files
src/raft/vcs.ts and src/raft/template.ts, with the build configuration from
Src/Raft/BuildConfig.ts.

Asynchronous TypeScript code (Promises composed with `await` and `.then`) is
embedded as values of `PResult`: the ordered trace of collaborator calls the
computation performed together with an `Except` result recording whether its
promise resolved or rejected.  External collaborators (the version-control
repository, the CMake backend, process execution, the filesystem) are
embedded as fakes: each call is recorded in the trace and its outcome is
prescribed by a result function, so theorems quantify over all collaborator
behaviours.
-/

/-- Paths are embedded as plain strings; existence checks consult an explicit
filesystem model `fs : Pathname → Bool`. -/
abbrev Pathname := String

/-- Modelled from the spec: path.ts is not under src/; besides existence
checks the core only joins a path with a component name. -/
def Pathname.append (p : Pathname) (component : String) : Pathname :=
  p ++ "/" ++ component

/-- Errors carried by rejected promises. -/
abbrev Err := String

/-- Platform, per Src/Raft/BuildConfig.ts. -/
inductive Platform where
  | Host
  deriving DecidableEq, Repr

/-- Architecture, per Src/Raft/BuildConfig.ts. -/
inductive Architecture where
  | Host
  deriving DecidableEq, Repr

/-- Build, per Src/Raft/BuildConfig.ts lines 4-8. -/
structure Build where
  platform : Platform
  architecture : Architecture
  isDeploy : Bool
  deriving DecidableEq, Repr

/-- Embeds the property access `build.releaseBuild` at src/raft/vcs.ts line
163.  The `Build` interface (Src/Raft/BuildConfig.ts) declares no
`releaseBuild` property, so in JavaScript this access evaluates to
`undefined`; `none` models `undefined`. -/
def Build.releaseBuild (b : Build) : Option Bool :=
  none

/-- Modelled from the spec: the dependency descriptor (raft-file-descriptor.ts
is not under src/) carries the declared name and opaque backend-specific
config key/value pairs. -/
structure DependencyDescriptor where
  name : String
  configOptions : List (String × String)
  deriving DecidableEq, Repr

/-- Modelled from the spec: the CMake build-backend options object (cmake.ts
is not under src/) exposes the install prefix, the release/debug flag, the
target platform and pass-through config options; each builder method returns
an updated options value.  The release flag is stored exactly as passed, with
`none` modelling a JavaScript `undefined` argument. -/
structure CMakeOptions where
  installDir : Pathname
  releaseFlag : Option Bool
  targetPlatform : Option Platform
  configEntries : List (String × String)
  deriving DecidableEq, Repr

/-- Modelled from the spec: the `CMakeOptions.create` builder entry point,
taking the install prefix. -/
def CMakeOptions.create (installDir : Pathname) : CMakeOptions :=
  ⟨installDir, none, none, []⟩

/-- Modelled from the spec: the builder method setting the release flag. -/
def CMakeOptions.isReleaseBuild (o : CMakeOptions) (flag : Option Bool) : CMakeOptions :=
  ⟨o.installDir, flag, o.targetPlatform, o.configEntries⟩

/-- Modelled from the spec: the builder method setting the target platform. -/
def CMakeOptions.platform (o : CMakeOptions) (p : Platform) : CMakeOptions :=
  ⟨o.installDir, o.releaseFlag, some p, o.configEntries⟩

/-- Modelled from the spec: the builder method setting the pass-through
config options. -/
def CMakeOptions.configOptions (o : CMakeOptions) (c : List (String × String)) : CMakeOptions :=
  ⟨o.installDir, o.releaseFlag, o.targetPlatform, c⟩

/-- Observable collaborator calls, in the order the core performed them. -/
inductive Event where
  | log (tag message : String)
  | repoDownload (destination : Pathname)
  | repoPatch (directory patchFile : Pathname)
  | cmakeConfigure (sourceDir buildDir : Pathname) (options : CMakeOptions)
  | cmakeBuild (buildDir : Pathname)
  | cmakeInstall (buildDir : Pathname)
  | exec (cmd : String) (args : List String) (cwd : Option Pathname)
  | templateInst (templateDir destination : Pathname)
  | rimrafCall (target : Pathname) (cleanupError : Option Err)
  deriving DecidableEq, Repr

/-- Outcome of running an asynchronous computation: the ordered trace of
collaborator calls it performed and whether its promise resolved (`ok`) or
rejected (`error`). -/
structure PResult (α : Type) where
  trace : List Event
  result : Except Err α
  deriving Repr

/-- Promise sequencing (`await` / `.then`): if `m` rejects, the continuation
never runs and the rejection propagates; otherwise the continuation runs and
its calls follow all of the calls of `m`. -/
def pbind {α β : Type} (m : PResult α) (f : α → PResult β) : PResult β :=
  match m.result with
  | Except.error e => ⟨m.trace, Except.error e⟩
  | Except.ok a => ⟨m.trace ++ (f a).trace, (f a).result⟩

/-- A raftlog call (log.ts is a side-channel; the call is recorded as an
event and always succeeds). -/
def raftlog (tag message : String) : PResult Unit :=
  ⟨[Event.log tag message], Except.ok ()⟩

/-- The Repository collaborator (vcs.ts interface `Repository`), embedded as
a fake: each call is recorded in the trace and its outcome is prescribed by
the corresponding result function. -/
structure Repository where
  downloadResult : Pathname → Except Err Unit
  patchResult : Pathname → Pathname → Except Err Unit

/-- A call to `repository.download(destination)`. -/
def Repository.download (r : Repository) (destination : Pathname) : PResult Unit :=
  ⟨[Event.repoDownload destination], r.downloadResult destination⟩

/-- A call to `repository.patch(directory, patchFile)`. -/
def Repository.patch (r : Repository) (directory patchFile : Pathname) : PResult Unit :=
  ⟨[Event.repoPatch directory patchFile], r.patchResult directory patchFile⟩

/-- Modelled from the spec: the project layout capability (project.ts is not
under src/) resolves the source, build and install directories. -/
structure Project where
  dirForDependency : String → Pathname
  dirForDependencyBuild : String → Build → Pathname
  dirForDependencyInstall : Build → Pathname

/-- RepositoryDependency (vcs.ts lines 116-148): descriptor, repository and
patch list are fixed at construction; the record is immutable, so every field
is stable for the lifetime of the value. -/
structure RepositoryDependency where
  descriptor : DependencyDescriptor
  repository : Repository
  patches : List Pathname

/-- The `name` getter (vcs.ts lines 145-147): returns the name declared by
the descriptor. -/
def RepositoryDependency.name (d : RepositoryDependency) : String :=
  d.descriptor.name

/-- The patch loop of `RepositoryDependency.download` (vcs.ts lines 135-137):
`for (let patch of this.patches) await this.repository.patch(dir, patch)`. -/
def applyPatches (repo : Repository) (directory : Pathname) : List Pathname → PResult Unit
  | [] => ⟨[], Except.ok ()⟩
  | p :: rest => pbind (repo.patch directory p) fun _ => applyPatches repo directory rest

/-- RepositoryDependency.download (vcs.ts lines 128-138).  `fs` models the
`Pathname.exists()` checks: it returns whether a path currently exists. -/
def RepositoryDependency.download (fs : Pathname → Bool) (d : RepositoryDependency)
    (project : Project) (build : Build) : PResult Unit :=
  let dependencyDir := project.dirForDependency d.name
  if fs dependencyDir then ⟨[], Except.ok ()⟩
  else
    pbind (d.repository.download dependencyDir) fun _ =>
      applyPatches d.repository dependencyDir d.patches

/-- RepositoryDependency.buildInstall (vcs.ts line 143): `return null`.  The
body performs no collaborator calls; the returned `null`, awaited or chained
with `.then` by the orchestrator, behaves as an immediately resolved value,
so it is embedded as a computation with an empty trace that resolves. -/
def RepositoryDependency.buildInstall (d : RepositoryDependency)
    (project : Project) (build : Build) : PResult Unit :=
  ⟨[], Except.ok ()⟩

/-- Modelled from the spec: the CMake build backend (cmake.ts is not under
src/), embedded as a fake collaborator with prescribed outcomes for the
configure, build and install steps. -/
structure CMakeBackend where
  configureResult : Pathname → Pathname → CMakeOptions → Except Err Unit
  buildResult : Pathname → Except Err Unit
  installResult : Pathname → Except Err Unit

/-- A call to `CMake.configure(sourceDir, buildDir, options)`. -/
def CMake.configure (cm : CMakeBackend) (sourceDir buildDir : Pathname)
    (options : CMakeOptions) : PResult Unit :=
  ⟨[Event.cmakeConfigure sourceDir buildDir options],
    cm.configureResult sourceDir buildDir options⟩

/-- A call to `CMake.build(buildDir)`. -/
def CMake.build (cm : CMakeBackend) (buildDir : Pathname) : PResult Unit :=
  ⟨[Event.cmakeBuild buildDir], cm.buildResult buildDir⟩

/-- A call to `CMake.install(buildDir)`. -/
def CMake.install (cm : CMakeBackend) (buildDir : Pathname) : PResult Unit :=
  ⟨[Event.cmakeInstall buildDir], cm.installResult buildDir⟩

/-- CMakeDependency.buildInstall (vcs.ts lines 157-173): resolve the three
locations, build the options object with the builder chain of lines 161-165
(note line 163 passes `build.releaseBuild`), then run configure, build and
install, each chained with `.then` on the previous step. -/
def CMakeDependency.buildInstall (cm : CMakeBackend) (d : RepositoryDependency)
    (project : Project) (build : Build) : PResult Unit :=
  let sourceLocation := project.dirForDependency d.name
  let buildLocation := project.dirForDependencyBuild d.name build
  let installLocation := project.dirForDependencyInstall build
  let cmakeOptions :=
    (((CMakeOptions.create installLocation).isReleaseBuild build.releaseBuild).platform
        build.platform).configOptions d.descriptor.configOptions
  pbind (CMake.configure cm sourceLocation buildLocation cmakeOptions) fun _ =>
    pbind (CMake.build cm buildLocation) fun _ =>
      CMake.install cm buildLocation

/-- The Dependency interface (vcs.ts lines 84-111): a name, a patch list and
two asynchronous phases.  The orchestrator is polymorphic over this
capability set. -/
structure Dependency where
  name : String
  patches : List Pathname
  download : Project → Build → PResult Unit
  buildInstall : Project → Build → PResult Unit

/-- getDependency (vcs.ts lines 183-192): log, download, log, buildInstall,
log, each stage chained on the resolution of the previous one. -/
def getDependency (project : Project) (build : Build) (dep : Dependency) : PResult Unit :=
  pbind (raftlog dep.name "Downloading") fun _ =>
    pbind (dep.download project build) fun _ =>
      pbind (raftlog dep.name "Building") fun _ =>
        pbind (dep.buildInstall project build) fun _ =>
          raftlog dep.name "Ready"

/-- Packaging a RepositoryDependency behind the Dependency interface exactly
as the orchestrator consumes it. -/
def RepositoryDependency.toDependency (fs : Pathname → Bool) (d : RepositoryDependency) : Dependency :=
  ⟨d.name, d.patches,
    fun project build => RepositoryDependency.download fs d project build,
    fun project build => RepositoryDependency.buildInstall d project build⟩

/-- Modelled from the spec: `execute` (system.ts is not under src/) spawns an
external process; embedded as a fake recording the invocation, with the exit
outcome prescribed by an oracle. -/
abbrev ExecOracle := String → List String → Option Pathname → Except Err Unit

/-- A call to `execute(cmd, args, {cwd})`. -/
def execute (ex : ExecOracle) (cmd : String) (args : List String)
    (cwd : Option Pathname) : PResult Unit :=
  ⟨[Event.exec cmd args cwd], ex cmd args cwd⟩

/-- GitRepository (vcs.ts lines 28-39): a clone uri and an optional branch;
`none` models an omitted (undefined) branch argument. -/
structure GitRepository where
  uri : String
  branch : Option String

/-- getGitRepo (vcs.ts lines 61-66): clone only when the destination does not
exist, otherwise resolve immediately without any process invocation. -/
def getGitRepo (ex : ExecOracle) (fs : Pathname → Bool) (uri : String)
    (destination : Pathname) : PResult Unit :=
  if !(fs destination) then execute ex "git" ["clone", uri, destination] none
  else ⟨[], Except.ok ()⟩

/-- checkoutBranch (vcs.ts lines 68-70). -/
def checkoutBranch (ex : ExecOracle) (repo : Pathname) (branchName : String) : PResult Unit :=
  execute ex "git" ["checkout", branchName] (some repo)

/-- GitRepository.download (vcs.ts lines 44-49): getGitRepo, then checkout
the configured branch when one was given. -/
def GitRepository.download (ex : ExecOracle) (fs : Pathname → Bool) (g : GitRepository)
    (destination : Pathname) : PResult Unit :=
  pbind (getGitRepo ex fs g.uri destination) fun _ =>
    match g.branch with
    | some b => checkoutBranch ex destination b
    | none => ⟨[], Except.ok ()⟩

/-- GitRepository.patch (vcs.ts lines 54-58): run `git apply` only when both
the repository directory and the patch file exist, otherwise resolve without
invoking any process. -/
def GitRepository.patch (ex : ExecOracle) (fs : Pathname → Bool) (g : GitRepository)
    (repoDirectory patchFile : Pathname) : PResult Unit :=
  if fs repoDirectory && fs patchFile then
    execute ex "git" ["apply", patchFile] (some repoDirectory)
  else ⟨[], Except.ok ()⟩

/-- Mustache context values passed to template instantiation. -/
abbrev Context := List (String × String)

/-- Collaborators of template.ts: the gulp/mustache stream pipeline inside
`instantiateTemplate` (template.ts lines 24-35) is excluded library glue, so
its outcome is prescribed by `instantiateResult`; `rimrafErr` prescribes the
error argument the rimraf callback receives (`none` when removal succeeds). -/
structure TemplateEnv where
  instantiateResult : Pathname → Pathname → Context → Except Err Unit
  rimrafErr : Pathname → Option Err

/-- instantiateTemplate (template.ts lines 24-35), as one opaque asynchronous
step that either resolves or rejects. -/
def instantiateTemplate (env : TemplateEnv) (templatePath destination : Pathname)
    (context : Context) : PResult Unit :=
  ⟨[Event.templateInst templatePath destination],
    env.instantiateResult templatePath destination context⟩

/-- instantiateRepositoryTemplate (template.ts lines 44-53): download the
template repository into `destination/.template`, instantiate the template,
then remove the temporary directory.  The rimraf callback
`(err) => resolve()` ignores its error argument and resolves unconditionally;
the embedding records the error rimraf reported in the event while the
computation resolves regardless. -/
def instantiateRepositoryTemplate (env : TemplateEnv) (repo : Repository)
    (destination : Pathname) (context : Context) : PResult Unit :=
  let repoLocation := destination.append ".template"
  pbind (repo.download repoLocation) fun _ =>
    pbind (instantiateTemplate env repoLocation destination context) fun _ =>
      ⟨[Event.rimrafCall repoLocation (env.rimrafErr repoLocation)], Except.ok ()⟩

/-- Decidable equality of promise outcomes, used by the concrete witnesses. -/
instance : DecidableEq (Except Err Unit) := fun a b =>
  match a, b with
  | Except.ok (), Except.ok () => isTrue rfl
  | Except.ok (), Except.error _ => isFalse (fun h => Except.noConfusion h)
  | Except.error _, Except.ok () => isFalse (fun h => Except.noConfusion h)
  | Except.error e, Except.error f =>
    if h : e = f then isTrue (by rw [h]) else isFalse (fun hh => h (Except.error.inj hh))

/-- Fixture: a filesystem on which no path exists. -/
def fsNone : Pathname → Bool := fun _ => false

/-- Fixture: a filesystem on which every path exists. -/
def fsAll : Pathname → Bool := fun _ => true

/-- Fixture: a filesystem on which exactly one path exists. -/
def fsOnly (p : Pathname) : Pathname → Bool := fun q => q == p

/-- Fixture: a concrete project layout. -/
def projFixture : Project :=
  ⟨fun n => "deps/" ++ n, fun n _ => "bld/" ++ n, fun _ => "inst"⟩

/-- Fixture: a concrete deploy build configuration. -/
def buildFixture : Build :=
  ⟨Platform.Host, Architecture.Host, true⟩

/-- Fixture: a repository collaborator whose operations all succeed. -/
def repoAllOk : Repository :=
  ⟨fun _ => Except.ok (), fun _ _ => Except.ok ()⟩

/-- Fixture: a repository collaborator failing on patch file p2. -/
def repoP2Fails : Repository :=
  ⟨fun _ => Except.ok (),
    fun _ q => if q = "p2" then Except.error "boom" else Except.ok ()⟩

/-- Fixture: a concrete dependency descriptor. -/
def descZlib : DependencyDescriptor :=
  ⟨"zlib", [("FOO", "bar")]⟩

/-- Fixture: a concrete repository dependency with two patches. -/
def depZlib : RepositoryDependency :=
  ⟨descZlib, repoAllOk, ["p1", "p2"]⟩

/-- Fixture: the same dependency with three patches over the repository whose
patch application fails on p2. -/
def depZlibBad : RepositoryDependency :=
  ⟨descZlib, repoP2Fails, ["p1", "p2", "p3"]⟩

/-- Fixture: a CMake backend whose three steps all succeed. -/
def cmAllOk : CMakeBackend :=
  ⟨fun _ _ _ => Except.ok (), fun _ => Except.ok (), fun _ => Except.ok ()⟩

/-- Fixture: a CMake backend whose build step fails. -/
def cmBuildFails : CMakeBackend :=
  ⟨fun _ _ _ => Except.ok (), fun _ => Except.error "compile error", fun _ => Except.ok ()⟩

/-- Fixture: a dependency whose download phase rejects. -/
def depDlFails : Dependency :=
  ⟨"zlib", [],
    fun _ _ => ⟨[Event.repoDownload "deps/zlib"], Except.error "network"⟩,
    fun _ _ => ⟨[], Except.ok ()⟩⟩

/-- Fixture: a template environment whose rimraf cleanup reports an error. -/
def envRimrafFails : TemplateEnv :=
  ⟨fun _ _ _ => Except.ok (), fun _ => some "EACCES"⟩

/-- Fixture: a git repository handle with no branch configured. -/
def gitNoBranch : GitRepository :=
  ⟨"https://example.com/lib.git", none⟩

/-- Fixture: a process oracle under which every invocation exits cleanly. -/
def exAllOk : ExecOracle := fun _ _ _ => Except.ok ()

/-- Rejected first computation short-circuits a promise chain. -/
theorem pbind_error {α β : Type} (m : PResult α) (f : α → PResult β) (e : Err)
    (h : m.result = Except.error e) : pbind m f = ⟨m.trace, Except.error e⟩ := by
  unfold pbind
  rw [h]

/-- Resolved first computation sequences the continuation after it. -/
theorem pbind_ok {α β : Type} (m : PResult α) (f : α → PResult β) (a : α)
    (h : m.result = Except.ok a) :
    pbind m f = ⟨m.trace ++ (f a).trace, (f a).result⟩ := by
  unfold pbind
  rw [h]

/-- Running the patch loop when every patch applies cleanly: one patch call
per list entry, in list order, resolving. -/
theorem applyPatches_all_ok (repo : Repository) (directory : Pathname)
    (ps : List Pathname)
    (h : ∀ q ∈ ps, repo.patchResult directory q = Except.ok ()) :
    applyPatches repo directory ps =
      ⟨ps.map (fun q => Event.repoPatch directory q), Except.ok ()⟩ := by
  induction ps with
  | nil => rfl
  | cons p rest ih =>
    have hp : repo.patchResult directory p = Except.ok () :=
      h p (List.mem_cons_self p rest)
    have hr : ∀ q ∈ rest, repo.patchResult directory q = Except.ok () :=
      fun q hq => h q (List.mem_cons_of_mem p hq)
    simp [applyPatches, pbind, Repository.patch, hp, ih hr]

/-- Running the patch loop when one patch fails: the patches before it are
each applied in order, the failing one is attempted, the rest are not, and
the loop rejects with the patch failure. -/
theorem applyPatches_first_error (repo : Repository) (directory : Pathname)
    (pre : List Pathname) (q : Pathname) (post : List Pathname) (e : Err)
    (hpre : ∀ r ∈ pre, repo.patchResult directory r = Except.ok ())
    (hq : repo.patchResult directory q = Except.error e) :
    applyPatches repo directory (pre ++ q :: post) =
      ⟨pre.map (fun r => Event.repoPatch directory r) ++ [Event.repoPatch directory q],
        Except.error e⟩ := by
  induction pre with
  | nil => simp [applyPatches, pbind, Repository.patch, hq]
  | cons r rest ih =>
    have hr : repo.patchResult directory r = Except.ok () :=
      hpre r (List.mem_cons_self r rest)
    have hrest : ∀ s ∈ rest, repo.patchResult directory s = Except.ok () :=
      fun s hs => hpre s (List.mem_cons_of_mem r hs)
    simp [applyPatches, pbind, Repository.patch, hr, ih hrest]

/-- Claim C1: for every project, build and dependency, the orchestrator
invokes buildInstall only after the download promise has resolved; a rejected
download leaves buildInstall uninvoked and its rejection propagates to the
caller of getDependency unchanged.  The three cases fully characterize the
orchestrator trace: on download rejection the trace holds nothing beyond the
download calls, and otherwise every buildInstall call appears after all
download calls. -/
theorem getDependency_sequencing (project : Project) (build : Build) (dep : Dependency) :
    (∀ e, (dep.download project build).result = Except.error e →
        getDependency project build dep =
          ⟨Event.log dep.name "Downloading" :: (dep.download project build).trace,
            Except.error e⟩)
  ∧ ((dep.download project build).result = Except.ok () →
      (∀ e, (dep.buildInstall project build).result = Except.error e →
          getDependency project build dep =
            ⟨Event.log dep.name "Downloading" :: ((dep.download project build).trace
                ++ Event.log dep.name "Building" :: (dep.buildInstall project build).trace),
              Except.error e⟩)
      ∧ ((dep.buildInstall project build).result = Except.ok () →
          getDependency project build dep =
            ⟨Event.log dep.name "Downloading" :: ((dep.download project build).trace
                ++ Event.log dep.name "Building" :: ((dep.buildInstall project build).trace
                  ++ [Event.log dep.name "Ready"])),
              Except.ok ()⟩)) := by
  rcases hdl : dep.download project build with ⟨dt, dr⟩
  rcases hbi : dep.buildInstall project build with ⟨bt, br⟩
  refine ⟨fun e h => ?_, fun h => ⟨fun e h2 => ?_, fun h2 => ?_⟩⟩
  · simp only [getDependency, raftlog]
    rw [hdl]
    have hr : dr = Except.error e := h
    subst hr
    rfl
  · simp only [getDependency, raftlog]
    rw [hdl, hbi]
    have hr : dr = Except.ok () := h
    have hb : br = Except.error e := h2
    subst hr
    subst hb
    rfl
  · simp only [getDependency, raftlog]
    rw [hdl, hbi]
    have hr : dr = Except.ok () := h
    have hb : br = Except.ok () := h2
    subst hr
    subst hb
    rfl

/-- Witness for C1: a concrete dependency whose download rejects; the
orchestrator never reaches the build phase and the rejection propagates. -/
theorem getDependency_sequencing_witness :
    getDependency projFixture buildFixture depDlFails =
      ⟨[Event.log "zlib" "Downloading", Event.repoDownload "deps/zlib"],
        Except.error "network"⟩ := by
  have h := (getDependency_sequencing projFixture buildFixture depDlFails).1 "network" rfl
  simpa using h

/-- Claim C2: when the source directory of a RepositoryDependency already
exists, download resolves as a no-op with zero repository operations, and a
second download chained after it also performs zero repository operations. -/
theorem repositoryDependency_download_idempotent (fs : Pathname → Bool)
    (d : RepositoryDependency) (project : Project) (build : Build)
    (h : fs (project.dirForDependency d.name) = true) :
    RepositoryDependency.download fs d project build = ⟨[], Except.ok ()⟩ ∧
    pbind (RepositoryDependency.download fs d project build)
        (fun _ => RepositoryDependency.download fs d project build) =
      ⟨[], Except.ok ()⟩ := by
  have h1 : RepositoryDependency.download fs d project build = ⟨[], Except.ok ()⟩ := by
    simp [RepositoryDependency.download, h]
  refine ⟨h1, ?_⟩
  rw [h1]
  simp [pbind, h1]

/-- Witness for C2: concrete dependency over a filesystem where the
dependency directory exists. -/
theorem repositoryDependency_download_idempotent_witness :
    RepositoryDependency.download fsAll depZlib projFixture buildFixture =
      ⟨[], Except.ok ()⟩ :=
  (repositoryDependency_download_idempotent fsAll depZlib projFixture buildFixture rfl).1

/-- Claim C3: when the source directory is absent, download calls
repository.download on it first; on its resolution each patch is applied via
repository.patch in exactly array order; a patch failure stops the remaining
patches and rejects download; a repository.download failure means no patch is
attempted. -/
theorem repositoryDependency_download_fresh (fs : Pathname → Bool)
    (d : RepositoryDependency) (project : Project) (build : Build)
    (h : fs (project.dirForDependency d.name) = false) :
    (∀ e, d.repository.downloadResult (project.dirForDependency d.name) = Except.error e →
        RepositoryDependency.download fs d project build =
          ⟨[Event.repoDownload (project.dirForDependency d.name)], Except.error e⟩)
  ∧ (d.repository.downloadResult (project.dirForDependency d.name) = Except.ok () →
      ((∀ q ∈ d.patches,
          d.repository.patchResult (project.dirForDependency d.name) q = Except.ok ()) →
        RepositoryDependency.download fs d project build =
          ⟨Event.repoDownload (project.dirForDependency d.name) ::
              d.patches.map (fun q => Event.repoPatch (project.dirForDependency d.name) q),
            Except.ok ()⟩)
      ∧ (∀ pre q post e, d.patches = pre ++ q :: post →
          (∀ r ∈ pre,
            d.repository.patchResult (project.dirForDependency d.name) r = Except.ok ()) →
          d.repository.patchResult (project.dirForDependency d.name) q = Except.error e →
          RepositoryDependency.download fs d project build =
            ⟨Event.repoDownload (project.dirForDependency d.name) ::
                (pre.map (fun r => Event.repoPatch (project.dirForDependency d.name) r)
                  ++ [Event.repoPatch (project.dirForDependency d.name) q]),
              Except.error e⟩)) := by
  refine ⟨fun e he => ?_, fun hok => ⟨fun hall => ?_, fun pre q post e hsplit hpre hq => ?_⟩⟩
  · simp [RepositoryDependency.download, h, pbind, Repository.download, he]
  · simp [RepositoryDependency.download, h, pbind, Repository.download, hok,
      applyPatches_all_ok d.repository (project.dirForDependency d.name) d.patches hall]
  · simp [RepositoryDependency.download, h, pbind, Repository.download, hok, hsplit,
      applyPatches_first_error d.repository (project.dirForDependency d.name) pre q post e
        hpre hq]

/-- Witness for C3: over an empty filesystem, the all-success dependency
applies p1 then p2 after the download, and the dependency whose p2 fails
stops before p3 and rejects. -/
theorem repositoryDependency_download_fresh_witness :
    RepositoryDependency.download fsNone depZlib projFixture buildFixture =
      ⟨[Event.repoDownload "deps/zlib", Event.repoPatch "deps/zlib" "p1",
          Event.repoPatch "deps/zlib" "p2"], Except.ok ()⟩ ∧
    RepositoryDependency.download fsNone depZlibBad projFixture buildFixture =
      ⟨[Event.repoDownload "deps/zlib", Event.repoPatch "deps/zlib" "p1",
          Event.repoPatch "deps/zlib" "p2"], Except.error "boom"⟩ := by
  constructor
  · have h := ((repositoryDependency_download_fresh fsNone depZlib projFixture buildFixture
      rfl).2 rfl).1 (by decide)
    simpa using h
  · have h := ((repositoryDependency_download_fresh fsNone depZlibBad projFixture buildFixture
      rfl).2 rfl).2 ["p1"] "p2" ["p3"] "boom" rfl (by decide) (by decide)
    simpa using h

/-- Claim C4: CMakeDependency.buildInstall runs configure, build and install
in exactly that order, each step only after the previous one resolved; a
rejected step prevents the remaining steps and propagates, with no further
events (no cleanup of the build directory). -/
theorem cmakeDependency_pipeline (cm : CMakeBackend) (d : RepositoryDependency)
    (project : Project) (build : Build) (src bld : Pathname) (opts : CMakeOptions)
    (hsrc : src = project.dirForDependency d.name)
    (hbld : bld = project.dirForDependencyBuild d.name build)
    (hopts : opts = (((CMakeOptions.create
        (project.dirForDependencyInstall build)).isReleaseBuild
          build.releaseBuild).platform build.platform).configOptions
            d.descriptor.configOptions) :
    (∀ e, cm.configureResult src bld opts = Except.error e →
        CMakeDependency.buildInstall cm d project build =
          ⟨[Event.cmakeConfigure src bld opts], Except.error e⟩)
  ∧ (cm.configureResult src bld opts = Except.ok () →
      ((∀ e, cm.buildResult bld = Except.error e →
          CMakeDependency.buildInstall cm d project build =
            ⟨[Event.cmakeConfigure src bld opts, Event.cmakeBuild bld], Except.error e⟩)
      ∧ (cm.buildResult bld = Except.ok () →
          CMakeDependency.buildInstall cm d project build =
            ⟨[Event.cmakeConfigure src bld opts, Event.cmakeBuild bld,
                Event.cmakeInstall bld],
              cm.installResult bld⟩))) := by
  subst hsrc
  subst hbld
  subst hopts
  refine ⟨fun e he => ?_, fun hc => ⟨fun e hb => ?_, fun hb => ?_⟩⟩
  · simp [CMakeDependency.buildInstall, CMake.configure, CMake.build, CMake.install,
      pbind, he]
  · simp [CMakeDependency.buildInstall, CMake.configure, CMake.build, CMake.install,
      pbind, hc, hb]
  · simp [CMakeDependency.buildInstall, CMake.configure, CMake.build, CMake.install,
      pbind, hc, hb]

/-- Witness for C4: a backend whose build step fails; configure and build are
invoked in order, install is never invoked, the build failure propagates. -/
theorem cmakeDependency_pipeline_witness :
    CMakeDependency.buildInstall cmBuildFails depZlib projFixture buildFixture =
      ⟨[Event.cmakeConfigure "deps/zlib" "bld/zlib"
          ⟨"inst", none, some Platform.Host, [("FOO", "bar")]⟩,
        Event.cmakeBuild "bld/zlib"], Except.error "compile error"⟩ := by
  have h := ((cmakeDependency_pipeline cmBuildFails depZlib projFixture buildFixture
    _ _ _ rfl rfl rfl).2 rfl).1 "compile error" rfl
  simpa using h

/-- Claim C5 (code bug): vcs.ts line 163 passes `build.releaseBuild` to the
options builder, but the Build interface (Src/Raft/BuildConfig.ts) declares
no such property, so the release flag reaching configure is undefined even
for a build with `isDeploy = true`; the install prefix, target platform and
configOptions pairs do propagate.  The trace below exhibits the options that
configure receives for the deploy build fixture: the release flag slot is
`none` while `isDeploy` is `true`. -/
theorem cmake_configure_release_flag_undefined :
    buildFixture.isDeploy = true ∧
    (CMakeDependency.buildInstall cmAllOk depZlib projFixture buildFixture).trace =
      [Event.cmakeConfigure "deps/zlib" "bld/zlib"
          ⟨"inst", none, some Platform.Host, [("FOO", "bar")]⟩,
        Event.cmakeBuild "bld/zlib", Event.cmakeInstall "bld/zlib"] :=
  ⟨rfl, rfl⟩

/-- Claim C6: RepositoryDependency.buildInstall is a no-op that performs no
repository or build-backend operation and behaves as resolved (its body is
`return null`, which the orchestrator chain treats as an immediately resolved
value); consequently, whenever download resolves, the orchestrator drives a
RepositoryDependency to completion with only the three progress logs beyond
the download calls. -/
theorem repositoryDependency_buildInstall_noop (fs : Pathname → Bool)
    (d : RepositoryDependency) (project : Project) (build : Build) :
    RepositoryDependency.buildInstall d project build = ⟨[], Except.ok ()⟩ ∧
    ((RepositoryDependency.download fs d project build).result = Except.ok () →
      getDependency project build (d.toDependency fs) =
        ⟨Event.log d.name "Downloading" ::
            ((RepositoryDependency.download fs d project build).trace
              ++ [Event.log d.name "Building", Event.log d.name "Ready"]),
          Except.ok ()⟩) := by
  refine ⟨rfl, fun h => ?_⟩
  rcases hdl : RepositoryDependency.download fs d project build with ⟨dt, dr⟩
  rw [hdl] at h
  have hr : dr = Except.ok () := h
  subst hr
  simp only [getDependency, RepositoryDependency.toDependency, raftlog,
    RepositoryDependency.buildInstall]
  rw [hdl]
  rfl

/-- Witness for C6: the concrete dependency whose directory already exists;
the orchestrator resolves with exactly the three progress logs. -/
theorem repositoryDependency_buildInstall_noop_witness :
    getDependency projFixture buildFixture (depZlib.toDependency fsAll) =
      ⟨[Event.log "zlib" "Downloading", Event.log "zlib" "Building",
          Event.log "zlib" "Ready"], Except.ok ()⟩ := by
  have h := (repositoryDependency_buildInstall_noop fsAll depZlib projFixture
    buildFixture).2 rfl
  simpa using h

/-- Claim C7: GitRepository.patch runs the `git apply` process only when both
the target directory and the patch file exist; when either is missing no
process is invoked and the call resolves. -/
theorem gitRepository_patch_skip (ex : ExecOracle) (fs : Pathname → Bool)
    (g : GitRepository) (dir patchFile : Pathname) :
    ((fs dir = false ∨ fs patchFile = false) →
        GitRepository.patch ex fs g dir patchFile = ⟨[], Except.ok ()⟩)
  ∧ (fs dir = true → fs patchFile = true →
      GitRepository.patch ex fs g dir patchFile =
        ⟨[Event.exec "git" ["apply", patchFile] (some dir)],
          ex "git" ["apply", patchFile] (some dir)⟩) := by
  constructor
  · rintro (h | h) <;> simp [GitRepository.patch, execute, h]
  · intro h1 h2
    simp [GitRepository.patch, execute, h1, h2]

/-- Witness for C7: the two skip scenarios (directory missing, patch file
missing) invoke no process, and the both-exist scenario runs `git apply`. -/
theorem gitRepository_patch_skip_witness :
    GitRepository.patch exAllOk (fsOnly "fix.patch") gitNoBranch "deps/lib" "fix.patch" =
      ⟨[], Except.ok ()⟩ ∧
    GitRepository.patch exAllOk (fsOnly "deps/lib") gitNoBranch "deps/lib" "fix.patch" =
      ⟨[], Except.ok ()⟩ ∧
    GitRepository.patch exAllOk fsAll gitNoBranch "deps/lib" "fix.patch" =
      ⟨[Event.exec "git" ["apply", "fix.patch"] (some "deps/lib")], Except.ok ()⟩ :=
  ⟨(gitRepository_patch_skip exAllOk (fsOnly "fix.patch") gitNoBranch "deps/lib"
      "fix.patch").1 (Or.inl (by decide)),
    (gitRepository_patch_skip exAllOk (fsOnly "deps/lib") gitNoBranch "deps/lib"
      "fix.patch").1 (Or.inr (by decide)),
    (gitRepository_patch_skip exAllOk fsAll gitNoBranch "deps/lib" "fix.patch").2 rfl rfl⟩

/-- Claim C8 (code bug): the Repository interface documentation (vcs.ts lines
8-13) promises that download of a previously downloaded repository also
updates the source, but when the destination exists and no branch is
configured GitRepository.download performs no git invocation at all, leaving
the source untouched; when the destination is absent it does clone. -/
theorem gitRepository_download_existing_untouched :
    GitRepository.download exAllOk fsAll gitNoBranch "deps/lib" =
      ⟨[], Except.ok ()⟩ ∧
    GitRepository.download exAllOk fsNone gitNoBranch "deps/lib" =
      ⟨[Event.exec "git" ["clone", "https://example.com/lib.git", "deps/lib"] none],
        Except.ok ()⟩ :=
  ⟨rfl, rfl⟩

/-- Claim C9: the name of a dependency always equals the name declared by the
descriptor fixed at construction; the embedding records are immutable and the
operations return computations without touching the fields, so the name the
orchestrator sees through the Dependency interface is that same name. -/
theorem dependency_name_stable (d : RepositoryDependency) (fs : Pathname → Bool) :
    d.name = d.descriptor.name ∧ (d.toDependency fs).name = d.descriptor.name :=
  ⟨rfl, rfl⟩

/-- Claim C10: instantiateRepositoryTemplate resolves even when removal of
the temporary .template directory fails after instantiation; the rimraf error
is recorded by the callback and discarded, never propagating to the caller. -/
theorem instantiateRepositoryTemplate_discards_cleanup_error (env : TemplateEnv)
    (repo : Repository) (destination : Pathname) (context : Context) (e : Err)
    (h1 : repo.downloadResult (destination.append ".template") = Except.ok ())
    (h2 : env.instantiateResult (destination.append ".template") destination context =
      Except.ok ())
    (h3 : env.rimrafErr (destination.append ".template") = some e) :
    instantiateRepositoryTemplate env repo destination context =
      ⟨[Event.repoDownload (destination.append ".template"),
          Event.templateInst (destination.append ".template") destination,
          Event.rimrafCall (destination.append ".template") (some e)],
        Except.ok ()⟩ := by
  simp [instantiateRepositoryTemplate, instantiateTemplate, Repository.download,
    pbind, h1, h2, h3]

/-- Witness for C10: concrete template environment whose rimraf reports
EACCES; the call still resolves. -/
theorem instantiateRepositoryTemplate_discards_cleanup_error_witness :
    instantiateRepositoryTemplate envRimrafFails repoAllOk "proj" [("name", "demo")] =
      ⟨[Event.repoDownload "proj/.template", Event.templateInst "proj/.template" "proj",
          Event.rimrafCall "proj/.template" (some "EACCES")],
        Except.ok ()⟩ := by
  have h := instantiateRepositoryTemplate_discards_cleanup_error envRimrafFails repoAllOk
    "proj" [("name", "demo")] "EACCES" rfl rfl rfl
  simpa using h
